import Mathlib

/-!
Verification of the task-planner client core (task synchronization and
mutation-retry layer). The definitions below are shallow embeddings of the
functions in the repository's main component file; each definition carries a
note pointing to the source lines it translates. Asynchronous functions are
modelled as pure state transformers whose extra parameters stand for the
outcome of the awaited remote operation, and machine side effects (remote
calls, `TaskStore.create` invocations) are returned or logged explicitly so
that theorems can count them.
-/

namespace SmartTaskPlanner

/-! ## RetryExecutor (`withRetry`, source lines 17-27)

The source loop is

  for (let i = 0; i < retries; i++) {
    try { return await fn(); }
    catch (error) {
      if (i === retries - 1) throw error;
      const delay = Math.pow(2, i) * 1000;
      await new Promise(resolve => setTimeout(resolve, delay));
    }
  }

`fn` is modelled as a map from the attempt index (0-based) to that attempt's
outcome.  The result of the loop is a triple: what the promise settles to
(`none` when the loop falls through and the function resolves with
`undefined`, `some (Except.ok a)` for a resolved value, `some (Except.error e)`
for a thrown error), the number of attempts performed, and the list of delays
(in milliseconds) awaited between attempts.  The loop counter `i` and the
number of remaining iterations `retries - i` are carried separately; the
source's final-attempt test `i === retries - 1` is exactly `remaining = 1`,
i.e. `rest = 0` after peeling one iteration. -/

/-- One state of the retry loop: `i` is the source's loop counter, `remaining`
the number of iterations still allowed (`retries - i`). -/
def withRetryGo {ε α : Type} (fn : Nat → Except ε α) (i : Nat) :
    Nat → Option (Except ε α) × Nat × List Nat
  | 0 => (none, 0, [])
  | rest + 1 =>
    match fn i with
    | Except.ok a => (some (Except.ok a), 1, [])
    | Except.error e =>
      if rest = 0 then
        (some (Except.error e), 1, [])
      else
        let r := withRetryGo fn (i + 1) rest
        (r.1, r.2.1 + 1, 2 ^ i * 1000 :: r.2.2)

/-- `withRetry(fn, retries)`.  `retries` is an integer as in the source; a
non-positive count makes the loop body unreachable. -/
def withRetry {ε α : Type} (fn : Nat → Except ε α) (retries : Int) :
    Option (Except ε α) × Nat × List Nat :=
  withRetryGo fn 0 retries.toNat

/-! ## Task records and the ordering policy (source lines 103-115)

A Firestore document delivered by the snapshot listener, after
`{ id: doc.id, ...doc.data() }`.  `createdAt` is the server timestamp in
milliseconds, `none` while the optimistic local write has not yet been
resolved by the server (`serverTimestamp()` pending). -/

structure Task where
  id : String
  text : String
  completed : Bool
  createdAt : Option Nat
deriving DecidableEq, Repr

/-- `t.createdAt?.toMillis() || 0` (source lines 112-113). -/
def resolvedMillis (t : Task) : Nat :=
  t.createdAt.getD 0

/-- The sort comparator (source lines 108-115):

  if (a.completed !== b.completed) return a.completed ? 1 : -1;
  return timeB - timeA;
-/
def taskCompare (a b : Task) : Int :=
  if a.completed != b.completed then
    (if a.completed then 1 else -1)
  else
    (resolvedMillis b : Int) - (resolvedMillis a : Int)

/-- `a` strictly precedes `b` under the comparator: `comparator(a,b) < 0`. -/
def taskBefore (a b : Task) : Prop :=
  taskCompare a b < 0

instance (a b : Task) : Decidable (taskBefore a b) :=
  inferInstanceAs (Decidable (taskCompare a b < 0))

/-- The non-strict order corresponding to the comparator:
`a` may be placed before `b`, i.e. `comparator(b,a) ≥ 0`. -/
def taskLE (a b : Task) : Prop :=
  ¬ taskBefore b a

instance : DecidableRel taskLE :=
  fun a b => inferInstanceAs (Decidable (¬ taskBefore b a))

/-- `fetchedTasks.sort(comparator)` (source line 108).  `Array.prototype.sort`
with a consistent comparator produces the stable sort of the input by the
comparator's non-strict order; `List.insertionSort` with the non-strict order
`taskLE` is exactly that stable sort. -/
def orderingPolicy (ts : List Task) : List Task :=
  List.insertionSort taskLE ts

theorem taskCompare_neg (a b : Task) : taskCompare a b = -taskCompare b a := by
  unfold taskCompare
  cases ha : a.completed <;> cases hb : b.completed <;> simp

instance : IsTotal Task taskLE :=
  ⟨fun a b => by
    unfold taskLE taskBefore
    have h := taskCompare_neg a b
    omega⟩

instance : IsTrans Task taskLE :=
  ⟨fun a b c h1 h2 => by
    unfold taskLE taskBefore taskCompare at h1 h2 ⊢
    cases ha : a.completed <;> cases hb : b.completed <;> cases hc : c.completed <;>
      simp [ha, hb, hc] at h1 h2 ⊢ <;> omega⟩

theorem sorted_orderingPolicy (ts : List Task) :
    List.Sorted taskLE (orderingPolicy ts) :=
  List.sorted_insertionSort taskLE ts

/-- JavaScript's `String.prototype.trim()`: strip leading and trailing
whitespace.  (Defined over the character list so that it evaluates inside the
kernel; `String.trim` in the Lean core library computes the same string but
through position-indexed recursion that does not reduce definitionally.) -/
def jsTrim (s : String) : String :=
  String.mk
    (((s.data.dropWhile Char.isWhitespace).reverse.dropWhile
        Char.isWhitespace).reverse)

/-! ## Suggestion workflow (source lines 40-44, 169-203, 302-303, 396-401)

The React state slice driving the AI-suggestion dialog, plus an explicit log
of the `addTask` invocations it issues (`createCalls`), so that theorems can
count how many `create` calls a workflow step makes. -/

structure SugState where
  aiPrompt : String
  isGenerating : Bool
  generationError : Option String
  aiSuggestions : List String
  showAiModal : Bool
  createCalls : List String
deriving DecidableEq, Repr

/-- The value found at `response.data.tasks` on a successful generation call:
either the property is absent, present but not an array, or an array (of
strings, the only case the claims need). -/
inductive TasksField where
  | absent
  | notArray
  | arr (xs : List String)
deriving DecidableEq, Repr

/-- `generateTasksFromPrompt` (source lines 169-192), with the awaited
`withRetry(() => axios.post(...))` outcome passed in: `Except.error msg`
models the catch branch reached after retries are exhausted (with `msg` the
best-available message `error.response?.data?.error || 'Failed to connect
...'`); `Except.ok none` a settled response whose `response.data` is falsy;
`Except.ok (some f)` a settled response with `response.data.tasks = f`. -/
def generateTasksFromPrompt (resp : Except String (Option TasksField))
    (s : SugState) : SugState :=
  if jsTrim s.aiPrompt = "" ∨ s.isGenerating = true then s
  else
    let s1 := { s with isGenerating := true, generationError := none,
                       aiSuggestions := [] }
    let s2 :=
      match resp with
      | Except.ok (some (TasksField.arr xs)) => { s1 with aiSuggestions := xs }
      | Except.ok _ =>
          { s1 with generationError := some "AI returned an unexpected format." }
      | Except.error msg => { s1 with generationError := some msg }
    { s2 with isGenerating := false }

/-- `addAiSuggestion` (source lines 194-197): one `addTask(taskText)` call,
then `setAiSuggestions(prev => prev.filter(t => t !== taskText))`. -/
def addAiSuggestion (taskText : String) (s : SugState) : SugState :=
  { s with createCalls := s.createCalls ++ [taskText],
           aiSuggestions := s.aiSuggestions.filter (fun t => t != taskText) }

/-- `dismissAiSuggestions` (source lines 199-203). -/
def dismissAiSuggestions (s : SugState) : SugState :=
  { s with aiSuggestions := [], aiPrompt := "", showAiModal := false }

/-- The "Generate Tasks with AI" button handler (source lines 396-401). -/
def openAiModal (s : SugState) : SugState :=
  { s with aiPrompt := "", aiSuggestions := [], generationError := none,
           showAiModal := true }

/-- The events that drive the suggestion workflow: opening the dialog, typing
a prompt, a completed generation call, promoting a suggestion
(`addAiSuggestion`), the Dismiss button, and the Clear All button
(source line 303, `setAiSuggestions([])`). -/
inductive SugEvent where
  | openModal
  | setPrompt (p : String)
  | generate (resp : Except String (Option TasksField))
  | promote (text : String)
  | dismiss
  | clearAll

def sugStep : SugEvent → SugState → SugState
  | SugEvent.openModal => openAiModal
  | SugEvent.setPrompt p => fun s => { s with aiPrompt := p }
  | SugEvent.generate resp => generateTasksFromPrompt resp
  | SugEvent.promote text => addAiSuggestion text
  | SugEvent.dismiss => dismissAiSuggestions
  | SugEvent.clearAll => fun s => { s with aiSuggestions := [] }

/-- The initial React state (source lines 40-44). -/
def sugInit : SugState :=
  { aiPrompt := "", isGenerating := false, generationError := none,
    aiSuggestions := [], showAiModal := false, createCalls := [] }

def sugExec (es : List SugEvent) : SugState :=
  es.foldl (fun s e => sugStep e s) sugInit

def SugReachable (s : SugState) : Prop :=
  ∃ es, sugExec es = s

/-! ## TaskStore mutations (source lines 128-166)

The local state the CRUD callbacks touch, and the remote Firestore calls they
issue.  `StoreCtx` is the `db`/`userId` context the callbacks close over;
`MutationOutcome` is the settled outcome of the awaited
`withRetry(() => …Doc(...))` call. -/

structure StoreCtx where
  db : Bool
  userId : Option String
deriving DecidableEq, Repr

inductive MutationOutcome where
  | success
  | failure
deriving DecidableEq, Repr

/-- A remote mutation issued against the task collection. -/
inductive RemoteCall where
  | addDocCall (text : String) (completed : Bool)
  | updateDocCall (taskId : String) (completed : Bool)
  | deleteDocCall (taskId : String)
deriving DecidableEq, Repr

structure TaskFormState where
  newTaskText : String
  errorMessage : String
deriving DecidableEq, Repr

/-- `addTask` (source lines 128-142).  Returns the new local state and the
list of remote calls issued. -/
def addTask (ctx : StoreCtx) (outcome : MutationOutcome) (text : String)
    (s : TaskFormState) : TaskFormState × List RemoteCall :=
  if ctx.db = false ∨ ctx.userId = none ∨ jsTrim text = "" then (s, [])
  else
    let call := RemoteCall.addDocCall (jsTrim text) false
    match outcome with
    | MutationOutcome.success => ({ s with newTaskText := "" }, [call])
    | MutationOutcome.failure =>
        ({ s with errorMessage := "Could not add task. Please try again." }, [call])

/-- `toggleTaskCompletion` (source lines 144-155). -/
def toggleTaskCompletion (ctx : StoreCtx) (outcome : MutationOutcome)
    (taskId : String) (completed : Bool) (s : TaskFormState) :
    TaskFormState × List RemoteCall :=
  if ctx.db = false ∨ ctx.userId = none then (s, [])
  else
    let call := RemoteCall.updateDocCall taskId (!completed)
    match outcome with
    | MutationOutcome.success => (s, [call])
    | MutationOutcome.failure =>
        ({ s with errorMessage := "Could not update task status." }, [call])

/-- `deleteTask` (source lines 157-166). -/
def deleteTask (ctx : StoreCtx) (outcome : MutationOutcome) (taskId : String)
    (s : TaskFormState) : TaskFormState × List RemoteCall :=
  if ctx.db = false ∨ ctx.userId = none then (s, [])
  else
    let call := RemoteCall.deleteDocCall taskId
    match outcome with
    | MutationOutcome.success => (s, [call])
    | MutationOutcome.failure =>
        ({ s with errorMessage := "Could not delete task." }, [call])

/-! ## Retry loop lemmas -/

/-- One unfolding of the retry loop body. -/
theorem withRetryGo_succ {ε α : Type} (fn : Nat → Except ε α) (i rest : Nat) :
    withRetryGo fn i (rest + 1) =
      match fn i with
      | Except.ok a => (some (Except.ok a), 1, [])
      | Except.error e =>
        if rest = 0 then
          (some (Except.error e), 1, [])
        else
          ((withRetryGo fn (i + 1) rest).1, (withRetryGo fn (i + 1) rest).2.1 + 1,
            2 ^ i * 1000 :: (withRetryGo fn (i + 1) rest).2.2) := rfl

theorem withRetryGo_fail_all {ε α : Type} (fn : Nat → Except ε α) (errs : Nat → ε)
    (hf : ∀ j, fn j = Except.error (errs j)) :
    ∀ rest i, withRetryGo fn i (rest + 1) =
      (some (Except.error (errs (i + rest))), rest + 1,
        (List.range' i rest).map fun j => 2 ^ j * 1000) := by
  intro rest
  induction rest with
  | zero =>
    intro i
    rw [withRetryGo_succ, hf i]
    simp
  | succ m ih =>
    intro i
    rw [withRetryGo_succ, hf i]
    dsimp only
    rw [if_neg (Nat.succ_ne_zero m), ih (i + 1)]
    have hidx : i + 1 + m = i + (m + 1) := by omega
    rw [List.range'_succ, hidx]
    simp

theorem withRetryGo_succ_at {ε α : Type} (fn : Nat → Except ε α) (errs : Nat → ε)
    (k : Nat) (a : α) (hk : fn k = Except.ok a)
    (hfail : ∀ j, j < k → fn j = Except.error (errs j)) :
    ∀ rest i, i ≤ k → k < i + rest → withRetryGo fn i rest =
      (some (Except.ok a), k + 1 - i,
        (List.range' i (k - i)).map fun j => 2 ^ j * 1000) := by
  intro rest
  induction rest with
  | zero =>
    intro i h1 h2
    exact absurd h2 (by omega)
  | succ m ih =>
    intro i h1 h2
    by_cases hik : i = k
    · subst hik
      rw [withRetryGo_succ, hk]
      simp
    · have hlt : i < k := by omega
      have hr := ih (i + 1) (by omega) (by omega)
      rw [withRetryGo_succ, hfail i hlt]
      dsimp only
      rw [if_neg (show ¬ m = 0 by omega), hr]
      have h3 : k + 1 - (i + 1) + 1 = k + 1 - i := by omega
      have h4 : k - i = (k - (i + 1)) + 1 := by omega
      rw [h4, List.range'_succ, h3]
      simp

/-- C3: with `maxAttempts = n ≥ 1`, an operation failing on every attempt is
attempted exactly `n` times, with a wait of `2 ^ attempt * 1000` ms after each
non-final failed attempt (attempt counted from 0), and the error of the last
attempt is propagated unchanged; an operation first succeeding on 0-based
attempt `k` (so as the `k + 1`-st attempt, with `k + 1 ≤ n`) is attempted
exactly `k + 1` times and its success value is returned. -/
theorem withRetry_attempt_semantics {ε α : Type} (fn : Nat → Except ε α)
    (errs : Nat → ε) (n : Nat) (hn : 1 ≤ n) :
    ((∀ j, fn j = Except.error (errs j)) →
      withRetry fn (n : Int) =
        (some (Except.error (errs (n - 1))), n,
          (List.range (n - 1)).map fun j => 2 ^ j * 1000)) ∧
    (∀ k a, k < n → fn k = Except.ok a →
      (∀ j, j < k → fn j = Except.error (errs j)) →
      withRetry fn (n : Int) =
        (some (Except.ok a), k + 1,
          (List.range k).map fun j => 2 ^ j * 1000)) := by
  have htn : (n : Int).toNat = n := by omega
  constructor
  · intro hf
    unfold withRetry
    rw [htn]
    obtain ⟨m, rfl⟩ : ∃ m, n = m + 1 := ⟨n - 1, by omega⟩
    rw [withRetryGo_fail_all fn errs hf m 0]
    simp [List.range_eq_range']
  · intro k a hk hka hfail
    unfold withRetry
    rw [htn]
    rw [withRetryGo_succ_at fn errs k a hka hfail n 0 (by omega) (by omega)]
    simp [List.range_eq_range']

/-- Witness for C3: an operation failing on attempt 0 and succeeding on
attempt 1 under `maxAttempts = 3` makes exactly 2 attempts, one 1000 ms wait,
and returns the success. -/
theorem withRetry_attempt_semantics_witness :
    withRetry (fun j => if j = 1 then Except.ok "done" else Except.error j)
        (3 : Int) =
      (some (Except.ok "done"), 2, [1000]) := by
  have h := (withRetry_attempt_semantics
      (fun j => if j = 1 then Except.ok "done" else Except.error j)
      (fun j => j) 3 (by omega)).2 1 "done" (by omega) rfl
      (fun j hj => by
        have hj0 : j = 0 := by omega
        subst hj0
        rfl)
  simpa using h

/-- C10: a zero or negative retry budget makes the loop body unreachable:
`withRetry` resolves with `undefined` (no value, no error) after zero
invocations of the operation and zero waits. -/
theorem withRetry_nonpositive {ε α : Type} (fn : Nat → Except ε α)
    (retries : Int) (hr : retries ≤ 0) :
    withRetry fn retries = (none, 0, []) := by
  unfold withRetry
  have h0 : retries.toNat = 0 := by omega
  rw [h0]
  rfl

/-- Witness for C10 at budget `-2`. -/
theorem withRetry_nonpositive_witness :
    withRetry (fun _ : Nat => (Except.ok 5 : Except Nat Nat)) (-2) =
      (none, 0, []) :=
  withRetry_nonpositive (fun _ : Nat => (Except.ok 5 : Except Nat Nat)) (-2)
    (by omega)

/-! ## Ordering policy theorems -/

/-- C5: in the ordering policy's output every incomplete task precedes every
completed task: for any pair in output order, either the earlier one is
incomplete or the later one is completed. -/
theorem orderingPolicy_incomplete_first (ts : List Task) :
    (orderingPolicy ts).Pairwise
      (fun a b => a.completed = false ∨ b.completed = true) := by
  refine List.Pairwise.imp ?_ (sorted_orderingPolicy ts)
  intro a b hab
  by_cases ha : a.completed = true
  · by_cases hb : b.completed = true
    · exact Or.inr hb
    · exfalso
      apply hab
      unfold taskBefore taskCompare
      simp [ha, Bool.eq_false_iff.mpr hb]
  · exact Or.inl (Bool.eq_false_iff.mpr ha)

/-- C4: within each completion group the output is ordered by `createdAt`
descending, an unresolved `createdAt` counting as the minimum possible
timestamp (0 ms, so such a record sinks to the end of its group), and the
three-task snapshot of the scenario is ordered `[c, a, b]`. -/
theorem orderingPolicy_group_recency (ts : List Task) :
    (orderingPolicy ts).Pairwise
      (fun a b => a.completed = b.completed →
        resolvedMillis b ≤ resolvedMillis a) ∧
    (∀ (i tx : String) (c : Bool) (u : Task),
      resolvedMillis (Task.mk i tx c none) ≤ resolvedMillis u) ∧
    orderingPolicy
        [Task.mk "a" "" false (some 10), Task.mk "b" "" true (some 20),
          Task.mk "c" "" false (some 30)] =
      [Task.mk "c" "" false (some 30), Task.mk "a" "" false (some 10),
        Task.mk "b" "" true (some 20)] := by
  refine ⟨?_, ?_, by decide⟩
  · refine List.Pairwise.imp ?_ (sorted_orderingPolicy ts)
    intro a b hab hcc
    unfold taskLE taskBefore taskCompare at hab
    rw [hcc] at hab
    simp only [bne_self_eq_false, Bool.false_eq_true, if_false] at hab
    omega
  · intro i tx c u
    simp [resolvedMillis]

/-- C6: the ordering policy is idempotent: re-sorting its own output leaves
the sequence unchanged. -/
theorem orderingPolicy_idempotent (ts : List Task) :
    orderingPolicy (orderingPolicy ts) = orderingPolicy ts :=
  List.Sorted.insertionSort_eq (sorted_orderingPolicy ts)

/-! ## Suggestion workflow theorems -/

/-- C1 counterexample: promoting "Buy milk" from the buffer
`["Buy milk", "Buy milk"]` removes BOTH occurrences (the buffer becomes `[]`),
not just the first as claimed (the buffer is not `["Buy milk"]`). -/
theorem addAiSuggestion_duplicate_cex :
    (addAiSuggestion "Buy milk"
        { sugInit with aiSuggestions := ["Buy milk", "Buy milk"] }).aiSuggestions =
      [] ∧
    (addAiSuggestion "Buy milk"
        { sugInit with aiSuggestions := ["Buy milk", "Buy milk"] }).aiSuggestions ≠
      ["Buy milk"] := by
  constructor <;> decide

/-- C1 (amended): `promote(text)` removes EVERY text-equal occurrence of
`text` from the suggestion buffer (leaving counts of all other strings
unchanged) and issues exactly one `create(text)` call; in particular
promoting "Buy milk" from the buffer `["Buy milk", "Buy milk"]` leaves `[]`. -/
theorem addAiSuggestion_removes_all (s : SugState) (text : String) :
    (addAiSuggestion text s).aiSuggestions.count text = 0 ∧
    (∀ u, u ≠ text →
      (addAiSuggestion text s).aiSuggestions.count u =
        s.aiSuggestions.count u) ∧
    (addAiSuggestion text s).createCalls = s.createCalls ++ [text] ∧
    (addAiSuggestion "Buy milk"
        { s with aiSuggestions := ["Buy milk", "Buy milk"] }).aiSuggestions =
      [] := by
  refine ⟨?_, ?_, rfl, rfl⟩
  · rw [List.count_eq_zero]
    intro hmem
    have hkeep := List.of_mem_filter hmem
    simp at hkeep
  · intro u hu
    show (s.aiSuggestions.filter (fun t => t != text)).count u = _
    rw [List.count_filter (by simpa using hu)]

/-- C2 counterexample: from the reachable state produced by opening the
dialog, typing a prompt, and receiving a malformed generation response,
`dismissAll` leaves the pending generation-error state set instead of
clearing it. -/
theorem dismissAiSuggestions_keeps_error_cex :
    SugReachable
      (sugExec [SugEvent.openModal, SugEvent.setPrompt "plan a trip",
        SugEvent.generate (Except.ok (some TasksField.absent))]) ∧
    (dismissAiSuggestions
        (sugExec [SugEvent.openModal, SugEvent.setPrompt "plan a trip",
          SugEvent.generate (Except.ok (some TasksField.absent))])).generationError =
      some "AI returned an unexpected format." :=
  ⟨⟨[SugEvent.openModal, SugEvent.setPrompt "plan a trip",
      SugEvent.generate (Except.ok (some TasksField.absent))], rfl⟩,
    by decide⟩

/-- C2 (amended): on every reachable state of the suggestion workflow,
`dismissAll()` empties the suggestion buffer, clears the originating prompt
text, and closes the dialog, but leaves the pending generation-error state
unchanged. -/
theorem dismissAiSuggestions_spec (s : SugState) (_reach : SugReachable s) :
    (dismissAiSuggestions s).aiSuggestions = [] ∧
    (dismissAiSuggestions s).aiPrompt = "" ∧
    (dismissAiSuggestions s).showAiModal = false ∧
    (dismissAiSuggestions s).generationError = s.generationError :=
  ⟨rfl, rfl, rfl, rfl⟩

/-- Witness for C2 (amended), at the initial state. -/
theorem dismissAiSuggestions_spec_witness :
    (dismissAiSuggestions sugInit).aiSuggestions = [] ∧
    (dismissAiSuggestions sugInit).aiPrompt = "" ∧
    (dismissAiSuggestions sugInit).showAiModal = false ∧
    (dismissAiSuggestions sugInit).generationError = sugInit.generationError :=
  dismissAiSuggestions_spec sugInit ⟨[], rfl⟩

/-- C7: a generation call that runs (non-empty trimmed prompt, none in
flight) and settles with a `tasks` array of strings replaces the suggestion
buffer with exactly that list and sets no error state; one that settles
without the expected list shape (`response.data` falsy, the `tasks` property
absent — e.g. `\x7bfoo:"bar"\x7d` — or present but not an array) sets the
`GenerationFormatError` outcome and leaves the buffer empty. -/
theorem generateTasksFromPrompt_response_shapes (s : SugState)
    (xs : List String) (resp : Option TasksField)
    (hp : jsTrim s.aiPrompt ≠ "") (hg : s.isGenerating = false)
    (hshape : resp = none ∨ resp = some TasksField.absent ∨
      resp = some TasksField.notArray) :
    ((generateTasksFromPrompt (Except.ok (some (TasksField.arr xs)))
        s).aiSuggestions = xs ∧
      (generateTasksFromPrompt (Except.ok (some (TasksField.arr xs)))
        s).generationError = none) ∧
    ((generateTasksFromPrompt (Except.ok resp) s).generationError =
        some "AI returned an unexpected format." ∧
      (generateTasksFromPrompt (Except.ok resp) s).aiSuggestions = []) := by
  rcases hshape with h | h | h <;> subst h <;>
    simp [generateTasksFromPrompt, hp, hg]

/-- Witness for C7: prompt "plan a trip", the two-string success response and
the `tasks`-less response of the spec's scenarios. -/
theorem generateTasksFromPrompt_response_shapes_witness :
    ((generateTasksFromPrompt
        (Except.ok (some (TasksField.arr ["Draft outline", "Book venue"])))
        { sugInit with aiPrompt := "plan a trip", showAiModal := true }).aiSuggestions =
      ["Draft outline", "Book venue"] ∧
      (generateTasksFromPrompt
        (Except.ok (some (TasksField.arr ["Draft outline", "Book venue"])))
        { sugInit with aiPrompt := "plan a trip", showAiModal := true }).generationError =
        none) ∧
    ((generateTasksFromPrompt (Except.ok (some TasksField.absent))
        { sugInit with aiPrompt := "plan a trip", showAiModal := true }).generationError =
      some "AI returned an unexpected format." ∧
      (generateTasksFromPrompt (Except.ok (some TasksField.absent))
        { sugInit with aiPrompt := "plan a trip", showAiModal := true }).aiSuggestions =
        []) :=
  generateTasksFromPrompt_response_shapes
    { sugInit with aiPrompt := "plan a trip", showAiModal := true }
    ["Draft outline", "Book venue"] (some TasksField.absent)
    (by decide) rfl (Or.inr (Or.inl rfl))

/-! ## TaskStore mutation theorems -/

/-- C8: `create` with a whitespace-only text is a no-op (no remote call, no
state change), and every mutation (`create`, `toggleCompletion`, `delete`)
issued while no principal is bound is a no-op. -/
theorem mutations_noop_guards (ctx ctx0 : StoreCtx) (outcome : MutationOutcome)
    (text text2 tid : String) (c : Bool) (s : TaskFormState)
    (htext : jsTrim text = "") (h0 : ctx0.userId = none) :
    addTask ctx outcome text s = (s, []) ∧
    addTask ctx0 outcome text2 s = (s, []) ∧
    toggleTaskCompletion ctx0 outcome tid c s = (s, []) ∧
    deleteTask ctx0 outcome tid s = (s, []) := by
  refine ⟨?_, ?_, ?_, ?_⟩ <;>
    simp [addTask, toggleTaskCompletion, deleteTask, htext, h0]

/-- Witness for C8: `create("   ")` with a bound principal, and all three
mutations with no principal bound. -/
theorem mutations_noop_guards_witness :
    addTask (StoreCtx.mk true (some "user-1")) MutationOutcome.success "   "
        (TaskFormState.mk "   " "") =
      (TaskFormState.mk "   " "", []) ∧
    addTask (StoreCtx.mk true none) MutationOutcome.success "Buy milk"
        (TaskFormState.mk "   " "") =
      (TaskFormState.mk "   " "", []) ∧
    toggleTaskCompletion (StoreCtx.mk true none) MutationOutcome.success "t1"
        false (TaskFormState.mk "   " "") =
      (TaskFormState.mk "   " "", []) ∧
    deleteTask (StoreCtx.mk true none) MutationOutcome.success "t1"
        (TaskFormState.mk "   " "") =
      (TaskFormState.mk "   " "", []) :=
  mutations_noop_guards (StoreCtx.mk true (some "user-1"))
    (StoreCtx.mk true none) MutationOutcome.success "   " "Buy milk" "t1" false
    (TaskFormState.mk "   " "") (by decide) rfl

/-- C9: a `create(text)` call that passes the guards issues the remote
insert; on success the optimistic text-input state is cleared (and nothing
else changes locally), and on terminal failure the `MutationFailed` condition
is reported (the error message is set) while the text-input state is left
unchanged. -/
theorem addTask_outcome_semantics (ctx : StoreCtx) (text : String)
    (s : TaskFormState) (hdb : ctx.db = true) (hu : ctx.userId ≠ none)
    (ht : jsTrim text ≠ "") :
    addTask ctx MutationOutcome.success text s =
      ({ s with newTaskText := "" },
        [RemoteCall.addDocCall (jsTrim text) false]) ∧
    addTask ctx MutationOutcome.failure text s =
      ({ s with errorMessage := "Could not add task. Please try again." },
        [RemoteCall.addDocCall (jsTrim text) false]) ∧
    (addTask ctx MutationOutcome.failure text s).1.newTaskText =
      s.newTaskText := by
  have hguard : ¬ (ctx.db = false ∨ ctx.userId = none ∨ jsTrim text = "") := by
    simp [hdb, hu, ht]
  refine ⟨?_, ?_, ?_⟩ <;> simp [addTask, if_neg hguard]

/-- Witness for C9: `create(" Buy milk ")` with a bound principal, on both
outcomes. -/
theorem addTask_outcome_semantics_witness :
    addTask (StoreCtx.mk true (some "user-1")) MutationOutcome.success
        " Buy milk " (TaskFormState.mk " Buy milk " "") =
      (TaskFormState.mk "" "", [RemoteCall.addDocCall (jsTrim " Buy milk ") false]) ∧
    addTask (StoreCtx.mk true (some "user-1")) MutationOutcome.failure
        " Buy milk " (TaskFormState.mk " Buy milk " "") =
      (TaskFormState.mk " Buy milk " "Could not add task. Please try again.",
        [RemoteCall.addDocCall (jsTrim " Buy milk ") false]) ∧
    (addTask (StoreCtx.mk true (some "user-1")) MutationOutcome.failure
        " Buy milk " (TaskFormState.mk " Buy milk " "")).1.newTaskText =
      (TaskFormState.mk " Buy milk " "").newTaskText :=
  addTask_outcome_semantics (StoreCtx.mk true (some "user-1")) " Buy milk "
    (TaskFormState.mk " Buy milk " "") rfl (by simp) (by decide)

end SmartTaskPlanner
